import Mathlib

/-!
Verification of the rSearch backend collection-and-classification pipeline.

Shallow embedding of the core functions of
`backend/app/services/reddit.py`, `backend/app/services/comment_service.py`
and `backend/app/services/themes.py`, followed by theorems settling the
behavioral claims about them.  Python floats are modelled by exact
rationals, Python ints by `Int`/`Nat`, dictionaries by association lists,
and fallible calls by `Except`/outcome parameters.
-/

namespace RSearch

/-! ### String helpers

Kernel-reducible models of the Python string operations used by the code:
`str.startswith`, `str.replace`, `str.lower`, `len` and the substring test
`needle in hay`.  They operate on the character list underlying the
string. -/

/-- Python `s.startswith(p)`. -/
def startswith (p s : String) : Bool := p.toList.isPrefixOf s.toList

/-- Python `s.lower()`. -/
def lower (s : String) : String := String.mk (s.toList.map Char.toLower)

/-- Python `len(s)` (number of characters). -/
def str_len (s : String) : Nat := s.toList.length

/-- Python `s.replace(pat, repl)` on character lists: left-to-right,
non-overlapping, a non-empty pattern assumed (the code only replaces
`"t1_"`).  The extra fuel argument (any upper bound on the list length)
makes the recursion structural. -/
def replace_go (pat repl : List Char) : Nat → List Char → List Char
  | _, [] => []
  | 0, s => s
  | fuel + 1, c :: rest =>
    if pat ≠ [] ∧ pat.isPrefixOf (c :: rest)
    then repl ++ replace_go pat repl fuel ((c :: rest).drop pat.length)
    else c :: replace_go pat repl fuel rest

/-- Python `s.replace(pat, repl)`. -/
def str_replace (s pat repl : String) : String :=
  String.mk (replace_go pat.toList repl.toList s.toList.length s.toList)

/-- `contains_sub hay needle`: some contiguous run of `hay` equals
`needle`. -/
def contains_sub : List Char → List Char → Bool
  | _, [] => true
  | [], _ :: _ => false
  | c :: t, n => n.isPrefixOf (c :: t) || contains_sub t n

/-- Python `needle in hay` on strings. -/
def str_in (needle hay : String) : Bool := contains_sub hay.toList needle.toList

/-! ### Engagement scorer (`reddit.py`, `RedditService._calculate_engagement_score`
and `RedditService._calculate_comment_engagement`) -/

/-- Mirror of `RedditService._calculate_engagement_score`.
`distinguished` is Python-truthy when it is a non-`None` string, so it is
modelled as `Option String`; `upvote` is the submission's upvote ratio. -/
def calculate_engagement_score (score num_comments : Int) (upvote : ℚ)
    (distinguished : Option String) (stickied is_original_content : Bool) : ℚ :=
  let base_score : ℚ := (score : ℚ) + (num_comments : ℚ) * 2
  let weighted_score := base_score * upvote
  let weighted_score :=
    if distinguished.isSome || stickied then weighted_score * (12/10) else weighted_score
  let weighted_score :=
    if is_original_content then weighted_score * (11/10) else weighted_score
  min 1 (weighted_score / 10000)

/-- Mirror of `RedditService._calculate_comment_engagement`. -/
def calculate_comment_engagement (score : Int) (depth : Int)
    (is_submitter : Bool) (distinguished : Option String) (has_awards : Bool) : ℚ :=
  let base_score : ℚ := (score : ℚ) / ((depth : ℚ) + 1)
  let multipliers : ℚ := 1
  let multipliers := if is_submitter then multipliers * (15/10) else multipliers
  let multipliers := if distinguished.isSome then multipliers * (13/10) else multipliers
  let multipliers := if has_awards then multipliers * (12/10) else multipliers
  min 1 (base_score * multipliers / 100)

/-- The spec's clamp to `[0,1]`. -/
def clamp01 (x : ℚ) : ℚ := max 0 (min 1 x)

/-- The post-score formula as the spec words it:
`clamp01((score + 2*numComments) * upvoteRatio * boost / 10000)`, with
`boost = 1.2` when distinguished or stickied, further `*1.1` for original
content. -/
def spec_post_score (score num_comments : Int) (upvote : ℚ)
    (distinguished : Option String) (stickied is_original_content : Bool) : ℚ :=
  let boost : ℚ := if distinguished.isSome || stickied then 12/10 else 1
  let oc : ℚ := if is_original_content then 11/10 else 1
  clamp01 (((score : ℚ) + 2 * (num_comments : ℚ)) * upvote * boost * oc / 10000)

/-! ### Rate-limited client (`reddit.py`, `RedditService._rate_limited_request`) -/

/-- Outcome of one attempt of the wrapped coroutine:
`success`, the distinguished rate-limit signal
(`asyncprawcore.exceptions.TooManyRequests`), or any other exception. -/
inductive ReqOutcome where
  | success : ReqOutcome
  | rateLimited : ReqOutcome
  | failure : ReqOutcome
deriving DecidableEq, Repr

/-- How a `_rate_limited_request` call ends: the wrapped value is returned,
the rate-limit exception propagates after exhaustion, some other exception
propagates, or (only possible when `max_retries = 0`) the loop body never
runs and Python falls through returning `None`. -/
inductive RLOut where
  | ok : RLOut
  | rateLimitErr : RLOut
  | otherErr : RLOut
  | fellThrough : RLOut
deriving DecidableEq, Repr

/-- Result of a `_rate_limited_request` run: how it ended, how many attempts
of the wrapped coroutine were made, and the sleeps performed in order. -/
structure RLResult where
  out : RLOut
  attempts : Nat
  sleeps : List ℚ
deriving DecidableEq, Repr

/-- Mirror of the loop body of `RedditService._rate_limited_request` starting
at iteration `attempt` of `for attempt in range(max_retries)`.  Each
iteration first sleeps the base `request_delay`, then awaits the coroutine;
on `TooManyRequests` the last iteration re-raises, earlier ones sleep the
backoff `delay * 2^attempt` and continue; any other exception re-raises at
once. -/
def rate_limited_request_from (max_retries : Nat) (delay : ℚ)
    (outcomes : Nat → ReqOutcome) (attempt : Nat) (sleeps : List ℚ) : RLResult :=
  if _h : attempt < max_retries then
    let sleeps := sleeps ++ [delay]
    match outcomes attempt with
    | .success => ⟨.ok, attempt + 1, sleeps⟩
    | .failure => ⟨.otherErr, attempt + 1, sleeps⟩
    | .rateLimited =>
      if attempt = max_retries - 1 then ⟨.rateLimitErr, attempt + 1, sleeps⟩
      else
        rate_limited_request_from max_retries delay outcomes (attempt + 1)
          (sleeps ++ [delay * 2 ^ attempt])
  else ⟨.fellThrough, attempt, sleeps⟩
termination_by max_retries - attempt

/-- Mirror of `RedditService._rate_limited_request`; the service fixes
`self.max_retries = 3` and `self.request_delay = 1.0` at construction, the
model keeps them as parameters. -/
def rate_limited_request (max_retries : Nat) (delay : ℚ)
    (outcomes : Nat → ReqOutcome) : RLResult :=
  rate_limited_request_from max_retries delay outcomes 0 []

/-! ### Comment-tree builder (`comment_service.py`) -/

/-- Mirror of `CommentCollectionConfig` with its Python defaults. -/
structure CSConfig where
  limit_top : Nat := 25
  max_depth : Nat := 5
  min_score : Int := 2
  min_length : Nat := 20
  max_age_days : Nat := 365
deriving DecidableEq, Repr

/-- The scalar payload of one raw comment node, i.e. the `"data"` dict of a
`{kind, data}` child in the JSON comment listing together with its `kind`
tag.  Keys that `comment_data.get` defaults are kept as their raw values
(`author`/`distinguished` may be absent, hence `Option`). -/
structure RawData where
  kind : String
  rid : String
  body : String
  author : Option String
  score : Int
  parent_id : String
  is_submitter : Bool
  distinguished : Option String
  stickied : Bool
  edited : Bool
  all_awardings : List String
  created_utc : Nat
deriving DecidableEq, Repr

/-- A raw comment node: payload plus the list of children found under
`replies.data.children`. -/
inductive RawNode : Type where
  | mk (data : RawData) (replies : List RawNode)

def RawNode.data : RawNode → RawData
  | .mk d _ => d

def RawNode.replies : RawNode → List RawNode
  | .mk _ rs => rs

/-- Mirror of the stored `Comment` model as built by
`comment_service.process_comment_tree`.  `id` is the database primary key,
unassigned (`none`) on a freshly built record; `path` holds the ancestors'
database ids, which may therefore be `none` for ancestors built in the same
pass. -/
structure Comment where
  id : Option Nat := none
  reddit_id : String
  post_id : Nat
  parent_id : Option Nat
  content : String
  author : String
  score : Int
  depth : Nat
  path : List (Option Nat)
  is_submitter : Bool
  distinguished : Option String
  stickied : Bool
  edited : Bool
  all_awardings : List String
  created_utc : Nat
  reddit_parent_id : String
deriving DecidableEq, Repr

/-- The quality filter of `comment_service.process_comment_tree`:
`len(body) < min_length or score < min_score`. -/
def cs_dropped (cfg : CSConfig) (d : RawData) : Bool :=
  decide (str_len d.body < cfg.min_length) || decide (d.score < cfg.min_score)

mutual

/-- Mirror of `comment_service.process_comment_tree` on one node.  Returns
the flat list of built comments (node first, then each reply's subtree) and
the updated `comment_map`; the map is an association list where the most
recent insertion wins, matching Python dict lookup. -/
def process_comment_tree (cfg : CSConfig) (post_id : Nat) (node : RawNode)
    (depth : Nat) (parent_comment : Option Comment)
    (comment_map : List (String × Comment)) :
    List Comment × List (String × Comment) :=
  match node with
  | .mk d replies =>
    if cfg.max_depth < depth then ([], comment_map)
    else if cs_dropped cfg d then ([], comment_map)
    else
      let is_t1 := startswith "t1_" d.parent_id
      let reddit_parent_id :=
        if is_t1 then str_replace d.parent_id "t1_" "" else d.parent_id
      let parent : Option Comment :=
        if is_t1 then
          match parent_comment with
          | some p => some p
          | none => List.lookup reddit_parent_id comment_map
        else none
      let comment : Comment :=
        { reddit_id := d.rid
          post_id := post_id
          parent_id := parent.bind (fun p => p.id)
          content := d.body
          author := d.author.getD "[deleted]"
          score := d.score
          depth := depth
          path := match parent with
                  | some p => p.path ++ [p.id]
                  | none => []
          is_submitter := d.is_submitter
          distinguished := d.distinguished
          stickied := d.stickied
          edited := d.edited
          all_awardings := d.all_awardings
          created_utc := d.created_utc
          reddit_parent_id := reddit_parent_id }
      let comment_map := (comment.reddit_id, comment) :: comment_map
      let pr := process_reply_list cfg post_id replies depth comment comment_map
      (comment :: pr.1, pr.2)

/-- The reply loop of `comment_service.process_comment_tree`: each child of
kind `"t1"` is processed at `depth + 1` with the just-built comment as
`parent_comment`, threading the comment map and concatenating results. -/
def process_reply_list (cfg : CSConfig) (post_id : Nat) (rs : List RawNode)
    (depth : Nat) (parent : Comment) (comment_map : List (String × Comment)) :
    List Comment × List (String × Comment) :=
  match rs with
  | [] => ([], comment_map)
  | r :: rest =>
    if r.data.kind = "t1" then
      let p1 := process_comment_tree cfg post_id r (depth + 1) (some parent) comment_map
      let p2 := process_reply_list cfg post_id rest depth parent p1.2
      (p1.1 ++ p2.1, p2.2)
    else process_reply_list cfg post_id rest depth parent comment_map

end

/-- The top-level loop of `comment_service.collect_comments_for_post` over
the fetched listing: every entry of kind `"t1"` starts a tree at depth `0`
with no parent, sharing one `comment_map` across trees. -/
def process_forest (cfg : CSConfig) (post_id : Nat) (forest : List RawNode)
    (comment_map : List (String × Comment)) :
    List Comment × List (String × Comment) :=
  match forest with
  | [] => ([], comment_map)
  | t :: ts =>
    if t.data.kind = "t1" then
      let p1 := process_comment_tree cfg post_id t 0 none comment_map
      let p2 := process_forest cfg post_id ts p1.2
      (p1.1 ++ p2.1, p2.2)
    else process_forest cfg post_id ts comment_map

/-- Mirror of `comment_service.collect_comments_for_post` after the store
lookups: process the whole forest, then keep only comments whose
`reddit_id` is not among the already-persisted ids for this post. -/
def collect_comments_for_post (cfg : CSConfig) (post_id : Nat)
    (forest : List RawNode) (existing : List String) : List Comment :=
  let collected := (process_forest cfg post_id forest []).1
  collected.filter (fun c => !(existing.contains c.reddit_id))

mutual

/-- A node's declared parent kind agrees with its structural position: a
top-level node does not declare a comment (`t1_`) parent, a nested reply
does, and the same holds throughout the subtree (only `"t1"`-kind children
are ever traversed, so only they are constrained). -/
def wf_node (top : Bool) (node : RawNode) : Bool :=
  match node with
  | .mk d replies =>
    (if top then !(startswith "t1_" d.parent_id) else startswith "t1_" d.parent_id)
      && wf_replies replies

def wf_replies : List RawNode → Bool
  | [] => true
  | r :: rest => (r.data.kind != "t1" || wf_node false r) && wf_replies rest

end

/-- Every `"t1"`-kind tree of the listing is well-formed. -/
def wf_forest (forest : List RawNode) : Bool :=
  forest.all (fun t => t.data.kind != "t1" || wf_node true t)

mutual

/-- Reference definition following the spec's words (§4.2): the external ids
the builder keeps, where a subtree beyond `maxDepth` is discarded and a
node failing the quality filter is dropped together with its entire
subtree. -/
def spec_kept_ids (cfg : CSConfig) (node : RawNode) (depth : Nat) : List String :=
  match node with
  | .mk d replies =>
    if cfg.max_depth < depth then []
    else if cs_dropped cfg d then []
    else d.rid :: spec_kept_ids_list cfg replies (depth + 1)

def spec_kept_ids_list (cfg : CSConfig) : List RawNode → Nat → List String
  | [], _ => []
  | r :: rest, depth =>
    (if r.data.kind = "t1" then spec_kept_ids cfg r depth else [])
      ++ spec_kept_ids_list cfg rest depth

end

/-- The kept ids of a whole listing, per the spec's subtree-pruning
reading. -/
def spec_kept_forest (cfg : CSConfig) (forest : List RawNode) : List String :=
  match forest with
  | [] => []
  | t :: ts =>
    (if t.data.kind = "t1" then spec_kept_ids cfg t 0 else [])
      ++ spec_kept_forest cfg ts

/-! ### Comment collection in `reddit.py` (`RedditService.collect_post_comments`)

The second comment pipeline.  Its raw input is the AsyncPRAW object tree:
each comment object carries its own `depth` attribute, `parent_id` string,
and a `replies` list (no `kind` wrapper). -/

/-- Scalar payload of an AsyncPRAW comment object.  Attributes the code
accesses with `getattr(..., default)` or guards with `hasattr` are
`Option`s. -/
structure PrawData where
  rid : String
  author : Option String
  body : String
  created_utc : Option Nat
  score : Int
  praw_depth : Int
  is_submitter : Bool
  distinguished : Option String
  stickied : Bool
  edited : Bool
  has_awards : Bool
  parent_id : Option String
deriving DecidableEq, Repr

/-- An AsyncPRAW comment object: payload plus replies. -/
inductive PrawNode : Type where
  | mk (data : PrawData) (replies : List PrawNode)

def PrawNode.data : PrawNode → PrawData
  | .mk d _ => d

def PrawNode.replies : PrawNode → List PrawNode
  | .mk _ rs => rs

/-- The `min_score` argument of `collect_post_comments`: a map from depth
to threshold plus the `'default'` entry (itself defaulting to 1). -/
structure MinScoreMap where
  by_depth : List (Int × Int)
  dflt : Int := 1
deriving DecidableEq, Repr

/-- `min_score.get(comment_data.depth, min_score.get('default', 1))`. -/
def min_score_at (ms : MinScoreMap) (depth : Int) : Int :=
  (List.lookup depth ms.by_depth).getD ms.dflt

/-- A stored comment as built by `reddit.py`'s `process_comment`.  Note the
code always sets `path=[]` ("will be updated after parent IDs are set" —
no such update ever runs). -/
structure RSComment where
  id : Option Nat := none
  reddit_id : String
  post_id : Nat
  content : String
  author : String
  score : Int
  depth : Nat
  is_submitter : Bool
  distinguished : Option String
  stickied : Bool
  has_awards : Bool
  edited : Bool
  engagement_score : ℚ
  path : List (Option Nat)
  created_utc : Nat
  reddit_parent_id : Option String := none
  parent_id : Option Nat := none
deriving DecidableEq, Repr

/-- Mirror of the inner `process_comment` of
`RedditService.collect_post_comments`: validity checks, per-depth score
threshold (keyed by the object's own `depth` attribute), field extraction,
and parent-reference decoding. -/
def rs_process_comment (ms : MinScoreMap) (db_post_id : Nat) (d : PrawData) :
    Option RSComment :=
  if d.author.isNone then none
  else if d.body = "" || d.body = "[deleted]" || d.body = "[removed]" then none
  else
    match d.created_utc with
    | none => none
    | some created =>
      if d.score < min_score_at ms d.praw_depth then none
      else
        let engagement :=
          calculate_comment_engagement d.score d.praw_depth d.is_submitter
            d.distinguished d.has_awards
        let comment : RSComment :=
          { reddit_id := d.rid
            post_id := db_post_id
            content := d.body
            author := d.author.getD "[deleted]"
            score := max 0 d.score
            depth := (max 0 d.praw_depth).toNat
            is_submitter := d.is_submitter
            distinguished := d.distinguished
            stickied := d.stickied
            has_awards := d.has_awards
            edited := d.edited
            engagement_score := engagement
            path := []
            created_utc := created }
        match d.parent_id with
        | none => some comment
        | some pid =>
          if startswith "t1_" pid then
            some { comment with reddit_parent_id := some (String.mk (pid.toList.drop 3)) }
          else if startswith "t3_" pid then
            some { comment with reddit_parent_id := none }
          else some comment

mutual

/-- Mirror of the inner `process_comment_tree` of
`RedditService.collect_post_comments`.  `existing` maps already-persisted
reddit ids to their database ids; an already-known comment is updated in
place (keeping its database id) and still appended to the processed list.
Crucially, the replies of a node are traversed whether or not the node
itself was kept. -/
def rs_process_comment_tree (ms : MinScoreMap) (max_depth : Nat)
    (db_post_id : Nat) (existing : List (String × Nat)) (nodes : List PrawNode)
    (depth : Nat) (comment_map : List (String × RSComment)) :
    List RSComment × List (String × RSComment) :=
  if max_depth < depth then ([], comment_map)
  else
    match nodes with
    | [] => ([], comment_map)
    | n :: rest =>
      let hd := rs_process_node ms max_depth db_post_id existing n depth
        comment_map
      let tl := rs_process_comment_tree ms max_depth db_post_id existing rest
        depth hd.2
      (hd.1 ++ tl.1, tl.2)

/-- One iteration of the loop body of `reddit.py`'s inner
`process_comment_tree`: build (or update) the comment for this node, then
traverse its replies at `depth + 1` — the traversal happens whether or not
the node itself was kept. -/
def rs_process_node (ms : MinScoreMap) (max_depth : Nat) (db_post_id : Nat)
    (existing : List (String × Nat)) (node : PrawNode) (depth : Nat)
    (comment_map : List (String × RSComment)) :
    List RSComment × List (String × RSComment) :=
  match node with
  | .mk d replies =>
    let head : List RSComment × List (String × RSComment) :=
      match rs_process_comment ms db_post_id d with
      | none => ([], comment_map)
      | some c =>
        match List.lookup c.reddit_id existing with
        | some db_id =>
          let updated := { c with id := some db_id }
          ([updated], (c.reddit_id, updated) :: comment_map)
        | none => ([c], (c.reddit_id, c) :: comment_map)
    let children :=
      rs_process_comment_tree ms max_depth db_post_id existing replies
        (depth + 1) head.2
    (head.1 ++ children.1, children.2)

end

/-- The parent-id fixup loop at the end of `collect_post_comments`:
comments whose decoded parent is in the comment map and has a database id
get their `parent_id` set. -/
def rs_update_parent_ids (comment_map : List (String × RSComment))
    (cs : List RSComment) : List RSComment :=
  cs.map (fun c =>
    match c.reddit_parent_id with
    | some rpid =>
      match List.lookup rpid comment_map with
      | some p =>
        match p.id with
        | some pid => { c with parent_id := some pid }
        | none => c
      | none => c
    | none => c)

/-- Mirror of `RedditService.collect_post_comments` after the store and API
calls: process the whole forest from depth 0, run the parent-id fixup, and
return all processed comments (new and updated alike). -/
def rs_collect_post_comments (ms : MinScoreMap) (max_depth : Nat)
    (db_post_id : Nat) (existing : List (String × Nat))
    (forest : List PrawNode) : List RSComment :=
  let pr := rs_process_comment_tree ms max_depth db_post_id existing forest 0 []
  rs_update_parent_ids pr.2 pr.1

/-! ### Theme classifier (`themes.py`: `theme_categories`, `_analyze_post`,
`analyze_themes`) -/

/-- The fields of the stored `RedditPost` model that the classifier reads.
`pid` is the database primary key `post.id`. -/
structure RPost where
  pid : Nat
  reddit_id : String
  title : String
  content : String
  score : Int
  num_comments : Int
deriving DecidableEq, Repr

/-- The fields of a stored comment that `analyze_themes` reads. -/
structure DbComment where
  content : String
  score : Int
deriving DecidableEq, Repr

/-- A theme rule from the `theme_categories` catalog: metric-based with its
`criteria` and `sort_key` lambdas, or keyword-based with its trigger
list. -/
inductive ThemeRule where
  | metric (criteria : RPost → Bool) (sort_key : RPost → ℚ)
  | keyword (kw_list : List String)

/-- Mirror of `ThemeService.theme_categories` (name, rule, description), in
the dict's insertion order. -/
def theme_categories : List (String × ThemeRule × String) :=
  [ ("Hot Discussions",
      .metric (fun p => decide (10 < p.score) && decide (5 < p.num_comments))
        (fun p => (p.score : ℚ) * (6/10) + (p.num_comments : ℚ) * (4/10)),
      "Active discussions with high engagement"),
    ("Top Content", .metric (fun _ => true) (fun p => (p.score : ℚ)),
      "Highest-rated content"),
    ("Advice Requests",
      .keyword ["advice", "help", "question", "how do", "how to", "need help",
        "beginner", "learning", "technique", "tips", "practice"],
      "Posts seeking guidance and assistance"),
    ("Solution Requests",
      .keyword ["looking for", "recommend", "suggestion", "alternative",
        "which", "vs", "or", "setup", "kit", "pedal", "cymbal", "snare"],
      "Posts seeking specific solutions or recommendations"),
    ("Pain & Anger",
      .keyword ["frustrated", "angry", "annoyed", "hate", "problem", "issue",
        "broken", "noise", "loud", "neighbor", "complaint"],
      "Posts expressing frustration or problems"),
    ("Money Talk",
      .keyword ["price", "cost", "money", "paid", "expensive", "cheap",
        "worth", "budget", "deal", "sale", "used", "new"],
      "Discussions about costs and value"),
    ("Self-Promotion",
      .keyword ["i made", "my project", "check out", "launching",
        "just released", "my band", "my cover", "my setup", "my kit", "nfd",
        "new drum day"],
      "Users sharing their own content"),
    ("News",
      .keyword ["news", "announcement", "update", "release", "launched",
        "tour", "concert", "show", "performance", "competition"],
      "News and announcements"),
    ("Ideas",
      .keyword ["idea", "creative", "inspiration", "groove", "fill",
        "pattern", "style", "sound", "tone", "tuning"],
      "Creative and inspirational content"),
    ("Opportunities",
      .keyword ["opportunity", "job", "gig", "audition",
        "looking for drummer", "band", "project", "collaboration", "session",
        "studio"],
      "Job and collaboration opportunities") ]

/-- `(post.title + " " + post.content).lower()`. -/
def text_content (p : RPost) : String := lower (p.title ++ " " ++ p.content)

/-- One entry of the `matching_themes` list built by
`ThemeService._analyze_post`. -/
structure MatchedTheme where
  category : String
  score : ℚ
  is_keyword : Bool
  matched_keywords : List String
deriving DecidableEq, Repr

/-- The per-category match step of `_analyze_post`: metric themes match by
`criteria`, keyword themes when at least one trigger occurs in the lowered
`title + " " + content`. -/
def matched_theme (p : RPost) : String × ThemeRule × String → Option MatchedTheme
  | (name, .metric criteria sort_key, _) =>
    if criteria p then some ⟨name, sort_key p, false, []⟩ else none
  | (name, .keyword kw_list, _) =>
    let matched := kw_list.filter (fun k => str_in k (text_content p))
    if matched.isEmpty then none
    else some ⟨name, (matched.length : ℚ) / (kw_list.length : ℚ), true, matched⟩

/-- The theme-specific score adjustment and normalisation of
`_analyze_post`: "Hot Discussions" boosts by the comment/score rate,
"Advice Requests" by content length, and every score is capped at 1. -/
def adjusted_theme_score (p : RPost) (t : MatchedTheme) : ℚ :=
  let base := t.score
  let base :=
    if t.category = "Hot Discussions" then
      let comment_rate : ℚ := (p.num_comments : ℚ) / (max p.score 1 : ℚ)
      base * (1 + min comment_rate 1)
    else if t.category = "Advice Requests" then
      let content_length : ℚ := (str_len (text_content p) : ℚ)
      base * (1 + min (content_length / 1000) (1/2))
    else base
  min base 1

/-- Mirror of the stored `PostAnalysis` record. -/
structure PostAnalysis where
  post_id : Nat
  matching_themes : List String
  theme_scores : List (String × ℚ)
  keywords : List String
deriving DecidableEq, Repr

/-- The analysis record `_analyze_post` computes for a post. -/
def compute_post_analysis (p : RPost) : PostAnalysis :=
  let matching := theme_categories.filterMap (matched_theme p)
  { post_id := p.pid
    matching_themes := matching.map (fun t => t.category)
    theme_scores := matching.map (fun t => (t.category, adjusted_theme_score p t))
    keywords := ((matching.filter (fun t => t.is_keyword)).flatMap
      (fun t => t.matched_keywords)).dedup }

/-- Mirror of `ThemeService._analyze_post` against the store of existing
`PostAnalysis` rows: if a row for `post.id` already exists the call
returns at once, otherwise the computed analysis is appended. -/
def analyze_post (p : RPost) (store : List PostAnalysis) : List PostAnalysis :=
  if store.any (fun a => a.post_id == p.pid) then store
  else store ++ [compute_post_analysis p]

/-! #### `analyze_themes` (theme generation over a corpus) -/

/-- `engagement_score` as computed per post inside `analyze_themes`:
post score plus the sum of its comments' scores. -/
def corpus_engagement (pc : RPost × List DbComment) : Int :=
  pc.1.score + (pc.2.map (fun c => c.score)).sum

/-- The keyword-match weight `analyze_themes` computes for one post and one
keyword theme: matches in the lowered `title content` text plus half a
point per match in each non-empty comment body. -/
def corpus_keyword_matches (kw_list : List String)
    (pc : RPost × List DbComment) : ℚ :=
  let content := lower (pc.1.title ++ " " ++ pc.1.content)
  let post_matches : Nat :=
    (kw_list.filter (fun k => str_in (lower k) content)).length
  let comment_halves : ℚ :=
    ((pc.2.filter (fun c => c.content ≠ "")).map
      (fun c =>
        ((kw_list.filter (fun k => str_in (lower k) (lower c.content))).length : ℚ))).sum
  (post_matches : ℚ) + comment_halves * (1/2)

/-- Whether `analyze_themes` puts a post into a theme's group. -/
def in_theme_group (rule : ThemeRule) (pc : RPost × List DbComment) : Bool :=
  match rule with
  | .metric criteria _ => criteria pc.1
  | .keyword kw_list => decide (0 < corpus_keyword_matches kw_list pc)

/-- The score `analyze_themes` accumulates into `theme_scores` for one
grouped post. -/
def theme_score_contribution (rule : ThemeRule)
    (pc : RPost × List DbComment) : ℚ :=
  match rule with
  | .metric _ sort_key => sort_key pc.1
  | .keyword kw_list =>
    corpus_keyword_matches kw_list pc
      * (1 + (corpus_engagement pc : ℚ) * (1/10))

/-- Stable insertion of `x` into `l` with respect to the boolean order
`le` (kernel-reducible replacement for the library merge sort). -/
def insert_by (le : α → α → Bool) (x : α) : List α → List α
  | [] => [x]
  | y :: ys => if le x y then x :: y :: ys else y :: insert_by le x ys

/-- Sort used to model Python's `sorted`. -/
def sort_by (le : α → α → Bool) (l : List α) : List α :=
  l.foldr (insert_by le) []

/-- Descending `(engagement, comment volume)` order used to pick a theme's
top posts. -/
def theme_post_before (a b : RPost × List DbComment) : Bool :=
  let ka := (corpus_engagement a, a.2.length)
  let kb := (corpus_engagement b, b.2.length)
  decide (kb.1 < ka.1) || (decide (ka.1 = kb.1) && decide (kb.2 ≤ ka.2))

/-- The total of the `theme_scores` accumulator of `analyze_themes` for one
category over the corpus. -/
def theme_total_score (corpus : List (RPost × List DbComment))
    (name : String) : ℚ :=
  match theme_categories.find? (fun e => e.1 = name) with
  | some entry =>
    ((corpus.filter (in_theme_group entry.2.1)).map
      (theme_score_contribution entry.2.1)).sum
  | none => 0

/-- A generated `Theme` row with its `ThemePost` assignments
`(post id, relevance_score)`. -/
structure ThemeOut where
  category : String
  summary : String
  audience_id : Nat
  top_posts : List (Nat × Int)
deriving DecidableEq, Repr

/-- The `valid_themes` list built inside `ThemeService.analyze_themes`:
group the corpus by theme, keep only themes with at least 3 posts, and
attach the top 10 posts by descending engagement with
`relevance = score + total comment score`. -/
def valid_themes_for (audience_id : Nat)
    (corpus : List (RPost × List DbComment)) : List ThemeOut :=
  theme_categories.filterMap
    (fun entry =>
      if 3 ≤ (corpus.filter (in_theme_group entry.2.1)).length then
        some { category := entry.1
               summary := entry.2.2
               audience_id := audience_id
               top_posts :=
                 ((sort_by theme_post_before
                     (corpus.filter (in_theme_group entry.2.1))).take 10).map
                   (fun pc => (pc.1.pid, pc.1.score + (pc.2.map (fun c => c.score)).sum)) }
      else none)

/-- Mirror of `ThemeService.analyze_themes` after the store reads: fail on
an empty corpus, generate the populated themes, fail when none could be
generated, and order them by their accumulated `theme_scores`
descending. -/
def analyze_themes (audience_id : Nat)
    (corpus : List (RPost × List DbComment)) : Except String (List ThemeOut) :=
  if corpus.isEmpty then .error "No posts found for analysis"
  else
    if (valid_themes_for audience_id corpus).isEmpty then
      .error "No themes could be generated from the available posts"
    else
      .ok (sort_by (fun a b : ThemeOut =>
        decide (theme_total_score corpus b.category
          ≤ theme_total_score corpus a.category))
        (valid_themes_for audience_id corpus))

/-! ### Collection coordinator
(`themes.py`, `ThemeService.collect_posts_for_audience`)

The run is modelled against an abstract store `σ`: every fallible external
step of the run is an environment entry carrying its outcome and its
effect on the store, so the control flow of the coordinator — and only it
— is taken from the source. -/

/-- The mutable audience columns the coordinator owns. -/
structure Audience where
  is_collecting : Bool
  collection_progress : Nat
  last_collection_time : Option Nat
deriving DecidableEq, Repr

/-- Environment of one post iteration: the existing-check/add/update commit
(`upsert`), the comment collection and bulk save, and `_analyze_post`.
A `false`/`.error` marks the step raising, which the code turns into
`continue`. -/
structure PostEnv (σ : Type) where
  upsert_ok : Bool
  upsert : σ → σ
  comments : Except Unit (σ → σ)
  analyze_ok : Bool
  analyze : σ → σ

/-- Environment of one subreddit iteration: the outcome of
`get_subreddit_posts` (an exception there aborts the whole run). -/
structure SubEnv (σ : Type) where
  fetch : Except Unit (List (PostEnv σ))

/-- Environment of one run: one entry per subreddit of the audience, the
run mode, and the outcome of `analyze_themes` (consulted only on initial
runs). -/
structure RunEnv (σ : Type) where
  subs : List (SubEnv σ)
  is_initial : Bool
  themes : Except Unit (σ → σ)

/-- Result of a run: the audience columns after the final commit (including
the failure-recovery path that reopens a fresh session), the store, whether
the call re-raised, and the `collection_progress` values committed while
`is_collecting` was still true, in order. -/
structure RunOut (σ : Type) where
  audience : Audience
  store : σ
  raised : Bool
  progress_trace : List Nat
deriving Repr

/-- The body of the per-post `try` block: a failing step skips the rest of
the iteration (`continue`), and the progress write happens only when every
step succeeded. -/
def post_step (p : PostEnv σ) (st : σ) : σ × Bool :=
  if !p.upsert_ok then (st, false)
  else
    let st := p.upsert st
    match p.comments with
    | .error _ => (st, false)
    | .ok comment_eff =>
      let st := comment_eff st
      if p.analyze_ok then (p.analyze st, true) else (st, false)

/-- The `for post_idx, post in enumerate(posts, 1)` loop for one subreddit:
`n` subreddits in total, `m = len(posts)`, and after a fully successful
iteration the committed progress is
`50 + int((post_idx / total_posts) * (50 / total_subreddits))`, i.e.
`50 + ⌊post_idx·50 / (m·n)⌋`. -/
def run_posts (n m j : Nat) (ps : List (PostEnv σ)) (st : σ) : σ × List Nat :=
  match ps with
  | [] => (st, [])
  | p :: rest =>
    let r := post_step p st
    let w := if r.2 then [50 + (j * 50) / (m * n)] else []
    let rr := run_posts n m (j + 1) rest r.1
    (rr.1, w ++ rr.2)

/-- The `for i, subreddit in enumerate(subreddits, 1)` loop: each iteration
first commits `int((i / total_subreddits) * 50) = ⌊i·50 / n⌋`, then fetches
(a fetch exception aborts the run), then walks the posts.  Returns the
store, the committed progress values, and whether every fetch succeeded. -/
def run_subs (n i : Nat) (subs : List (SubEnv σ)) (st : σ) :
    σ × List Nat × Bool :=
  match subs with
  | [] => (st, [], true)
  | s :: rest =>
    match s.fetch with
    | .error _ => (st, [(i * 50) / n], false)
    | .ok posts =>
      let pr := run_posts n posts.length 1 posts st
      let rr := run_subs n (i + 1) rest pr.1
      (rr.1, ((i * 50) / n) :: pr.2 ++ rr.2.1, rr.2.2)

/-- Mirror of `ThemeService.collect_posts_for_audience` for an existing
audience.  If the audience is already collecting the call is a guarded
no-op.  Otherwise the run starts with `is_collecting=true, progress=0`; an
audience without subreddits raises; on success the final commit sets
`last_collection_time=now, progress=100, is_collecting=false` and an
initial run then generates themes (whose failure turns the call into a
failed one); every failure ends in the recovery path — the inner handler
and the fresh-session outer handler — leaving
`is_collecting=false, progress=0`. -/
def collect_posts_for_audience (aud : Audience) (env : RunEnv σ) (st : σ)
    (now : Nat) : RunOut σ :=
  if aud.is_collecting then ⟨aud, st, false, []⟩
  else
    let n := env.subs.length
    if n = 0 then
      ⟨⟨false, 0, aud.last_collection_time⟩, st, true, [0]⟩
    else
      let r := run_subs n 1 env.subs st
      if r.2.2 then
        match (if env.is_initial then env.themes else .ok (fun s => s)) with
        | .ok theme_eff =>
          ⟨⟨false, 100, some now⟩, theme_eff r.1, false, 0 :: r.2.1 ++ [100]⟩
        | .error _ =>
          ⟨⟨false, 0, some now⟩, r.1, true, 0 :: r.2.1 ++ [100]⟩
      else ⟨⟨false, 0, aud.last_collection_time⟩, r.1, true, 0 :: r.2.1⟩

/-! ## Claims -/

/-- C8: for every post with non-negative score, comment count and upvote
ratio, the engagement score equals the spec's
`clamp01((score + 2*numComments) * upvoteRatio * boost / 10000)` with
`boost = 1.2` for distinguished/stickied and a further `*1.1` for original
content; and the concrete post `score=100, numComments=50, ratio=0.9`
with no flags scores exactly `0.018`. -/
theorem C8_post_engagement_formula :
    (∀ (score num_comments : Int) (upvote : ℚ) (distinguished : Option String)
      (stickied oc : Bool), 0 ≤ score → 0 ≤ num_comments → 0 ≤ upvote →
      calculate_engagement_score score num_comments upvote distinguished stickied oc
        = spec_post_score score num_comments upvote distinguished stickied oc)
    ∧ calculate_engagement_score 100 50 (9/10) none false false = 18/1000 := by
  constructor
  · intro score num_comments upvote distinguished stickied oc hs hc hu
    unfold calculate_engagement_score spec_post_score clamp01
    have key : ∀ x y : ℚ, x = y → 0 ≤ y →
        min 1 (x / 10000) = max 0 (min 1 (y / 10000)) := by
      intro x y hxy hy
      subst hxy
      rw [max_eq_right]
      refine le_min (by norm_num) (by positivity)
    have hb : (0:ℚ) ≤ ((score : ℚ) + (num_comments : ℚ) * 2) * upvote := by
      have h1 : (0:ℚ) ≤ (score : ℚ) := by exact_mod_cast hs
      have h2 : (0:ℚ) ≤ (num_comments : ℚ) := by exact_mod_cast hc
      positivity
    cases hd : (distinguished.isSome || stickied) <;> cases ho : oc <;>
      simp only [Bool.false_eq_true, if_true, if_false, ite_true, ite_false,
        eq_self_iff_true] <;>
      exact key _ _ (by ring) (by positivity)
  · norm_num [calculate_engagement_score]

/-- Witness for C8 at the spec's concrete scenario. -/
theorem C8_witness :
    calculate_engagement_score 100 50 (9/10) none false false
      = spec_post_score 100 50 (9/10) none false false :=
  C8_post_engagement_formula.1 100 50 (9/10) none false false
    (by norm_num) (by norm_num) (by norm_num)

/-- C9: classification is idempotent per post — when an analysis row for
the post already exists `_analyze_post` returns without touching the
store, and running the pass twice equals running it once. -/
theorem C9_classification_idempotent :
    (∀ (p : RPost) (store : List PostAnalysis),
      store.any (fun a => a.post_id == p.pid) = true → analyze_post p store = store)
    ∧ ∀ (p : RPost) (store : List PostAnalysis),
      analyze_post p (analyze_post p store) = analyze_post p store := by
  constructor
  · intro p store h
    simp [analyze_post, h]
  · intro p store
    by_cases h : store.any (fun a => a.post_id == p.pid) = true
    · simp [analyze_post, h]
    · simp only [analyze_post, h, if_false, Bool.not_eq_true] at *
      simp [h, List.any_append, compute_post_analysis]

/-- Witness for C9: a store already holding an analysis for post 7 is left
unchanged. -/
theorem C9_witness :
    analyze_post ⟨7, "r7", "t", "c", 1, 1⟩ [⟨7, [], [], []⟩] = [⟨7, [], [], []⟩] :=
  C9_classification_idempotent.1 ⟨7, "r7", "t", "c", 1, 1⟩ [⟨7, [], [], []⟩] (by decide)

/-- C10: calling `collect_posts_for_audience` on an audience already
collecting returns normally and changes nothing — neither the audience
columns nor anything in the store. -/
theorem C10_already_collecting_noop {σ : Type} (aud : Audience) (env : RunEnv σ)
    (st : σ) (now : Nat) (h : aud.is_collecting = true) :
    collect_posts_for_audience aud env st now = ⟨aud, st, false, []⟩ := by
  unfold collect_posts_for_audience
  simp [h]

/-- Witness for C10 on a concrete audience and environment. -/
theorem C10_witness :
    collect_posts_for_audience ⟨true, 37, some 3⟩
      (⟨[⟨.ok []⟩], true, .ok (fun s => s)⟩ : RunEnv Unit) () 5
      = ⟨⟨true, 37, some 3⟩, (), false, []⟩ :=
  C10_already_collecting_noop ⟨true, 37, some 3⟩ _ () 5 rfl

/-- C1: a run that actually starts (guard passes) always ends with
`is_collecting = false`; if it returns without raising the progress is 100
and `last_collection_time` is set to now, and if it raises the progress is
reset to 0 by the recovery path. -/
theorem C1_terminal_state {σ : Type} (aud : Audience) (env : RunEnv σ)
    (st : σ) (now : Nat) (h : aud.is_collecting = false) :
    ((collect_posts_for_audience aud env st now).audience.is_collecting = false)
    ∧ ((collect_posts_for_audience aud env st now).raised = false →
        (collect_posts_for_audience aud env st now).audience.collection_progress = 100
        ∧ (collect_posts_for_audience aud env st now).audience.last_collection_time
            = some now)
    ∧ ((collect_posts_for_audience aud env st now).raised = true →
        (collect_posts_for_audience aud env st now).audience.collection_progress = 0) := by
  unfold collect_posts_for_audience
  simp only [h, Bool.false_eq_true, if_false]
  by_cases hn : env.subs.length = 0
  · simp [hn]
  · simp only [hn, if_false]
    cases hok : (run_subs env.subs.length 1 env.subs st).2.2
    · simp [hok]
    · cases hth : (if env.is_initial then env.themes else .ok (fun s => s)) <;>
        simp [hok, hth]

/-- Witness for C1: a successful empty-posts run over one subreddit. -/
theorem C1_witness :
    ((collect_posts_for_audience ⟨false, 0, none⟩
        (⟨[⟨.ok []⟩], false, .ok (fun s => s)⟩ : RunEnv Unit) () 9).audience.is_collecting
      = false) := by
  exact (C1_terminal_state ⟨false, 0, none⟩
    (⟨[⟨.ok []⟩], false, .ok (fun s => s)⟩ : RunEnv Unit) () 9 rfl).1

/-- The sleeps of a run whose first `k` attempts were rate-limited: before
each retry `a+1` the loop has slept the base delay and then the backoff
`delay * 2^a`, and one more base delay precedes the final attempt. -/
def backoff_sleeps (delay : ℚ) (k : Nat) : List ℚ :=
  (List.range k).flatMap (fun a => [delay, delay * 2 ^ a]) ++ [delay]

/-- Evaluation of `_rate_limited_request` with the service's
`max_retries = 3` on an arbitrary outcome sequence. -/
theorem rlr3_eval (delay : ℚ) (outcomes : Nat → ReqOutcome) :
    rate_limited_request 3 delay outcomes =
      match outcomes 0, outcomes 1, outcomes 2 with
      | .success, _, _ => ⟨.ok, 1, [delay]⟩
      | .failure, _, _ => ⟨.otherErr, 1, [delay]⟩
      | .rateLimited, .success, _ => ⟨.ok, 2, [delay, delay * 2 ^ 0, delay]⟩
      | .rateLimited, .failure, _ => ⟨.otherErr, 2, [delay, delay * 2 ^ 0, delay]⟩
      | .rateLimited, .rateLimited, .success =>
        ⟨.ok, 3, [delay, delay * 2 ^ 0, delay, delay * 2 ^ 1, delay]⟩
      | .rateLimited, .rateLimited, .failure =>
        ⟨.otherErr, 3, [delay, delay * 2 ^ 0, delay, delay * 2 ^ 1, delay]⟩
      | .rateLimited, .rateLimited, .rateLimited =>
        ⟨.rateLimitErr, 3, [delay, delay * 2 ^ 0, delay, delay * 2 ^ 1, delay]⟩ := by
  rcases h0 : outcomes 0 <;> rcases h1 : outcomes 1 <;> rcases h2 : outcomes 2 <;>
    simp [rate_limited_request, rate_limited_request_from, h0, h1, h2]

/-- C6: with the service's `max_retries = 3`, the wrapper retries only on
the distinguished rate-limit signal, sleeping `delay * 2^attempt` before
each retry; a non-rate-limit exception propagates at the attempt where it
occurs with no retry; and after three straight rate-limited attempts the
rate-limit failure propagates. -/
theorem C6_retry_policy (delay : ℚ) (outcomes : Nat → ReqOutcome) :
    (∀ k, k < (rate_limited_request 3 delay outcomes).attempts - 1 →
      outcomes k = .rateLimited)
    ∧ (∀ k, k < 3 → (∀ j, j < k → outcomes j = .rateLimited) →
        outcomes k = .failure →
        rate_limited_request 3 delay outcomes
          = ⟨.otherErr, k + 1, backoff_sleeps delay k⟩)
    ∧ (∀ k, k < 3 → (∀ j, j < k → outcomes j = .rateLimited) →
        outcomes k = .success →
        rate_limited_request 3 delay outcomes
          = ⟨.ok, k + 1, backoff_sleeps delay k⟩)
    ∧ ((∀ j, j < 3 → outcomes j = .rateLimited) →
        rate_limited_request 3 delay outcomes
          = ⟨.rateLimitErr, 3, backoff_sleeps delay 2⟩) := by
  have hev := rlr3_eval delay outcomes
  have hbs0 : backoff_sleeps delay 0 = [delay] := by
    simp [backoff_sleeps]
  have hbs1 : backoff_sleeps delay 1 = [delay, delay * 2 ^ 0, delay] := by
    simp [backoff_sleeps, List.range_succ]
  have hbs2 : backoff_sleeps delay 2
      = [delay, delay * 2 ^ 0, delay, delay * 2 ^ 1, delay] := by
    simp [backoff_sleeps, List.range_succ]
  rcases h0 : outcomes 0 <;> rcases h1 : outcomes 1 <;> rcases h2 : outcomes 2 <;>
    simp only [h0, h1, h2] at hev <;>
    refine ⟨?_, ?_, ?_, ?_⟩ <;>
    first
      | (intro k hk
         rw [hev] at hk
         simp at hk <;>
           first
             | (subst hk; exact h0)
             | (interval_cases k <;> first | exact h0 | exact h1))
      | (intro k hk hprev hout
         interval_cases k <;>
           first
             | (exact ReqOutcome.noConfusion (h0.symm.trans hout))
             | (exact ReqOutcome.noConfusion (h1.symm.trans hout))
             | (exact ReqOutcome.noConfusion (h2.symm.trans hout))
             | (exact ReqOutcome.noConfusion
                 ((hprev 0 (Nat.zero_lt_succ _)).symm.trans h0))
             | (exact ReqOutcome.noConfusion
                 ((hprev 1 (Nat.lt_succ_self 1)).symm.trans h1))
             | (rw [hev, hbs0])
             | (rw [hev, hbs1])
             | (rw [hev, hbs2]))
      | (intro hall
         first
           | (exact ReqOutcome.noConfusion
               ((hall 0 (Nat.zero_lt_succ _)).symm.trans h0))
           | (exact ReqOutcome.noConfusion
               ((hall 1 (Nat.succ_lt_succ (Nat.zero_lt_succ _))).symm.trans h1))
           | (exact ReqOutcome.noConfusion
               ((hall 2 (Nat.lt_succ_self 2)).symm.trans h2))
           | (rw [hev, hbs2]))

/-- Witness for C6: three straight rate limits exhaust the retries and the
rate-limit failure propagates after backoffs `delay`, `2·delay`. -/
theorem C6_witness :
    rate_limited_request 3 1 (fun _ => ReqOutcome.rateLimited)
      = ⟨.rateLimitErr, 3, backoff_sleeps 1 2⟩ :=
  (C6_retry_policy 1 (fun _ => ReqOutcome.rateLimited)).2.2.2 (fun _ _ => rfl)

/-- C5: comment collection returns only comments whose external id is not
among the already-persisted ids — and nothing else is removed: the
returned list is exactly the processed forest minus the known ids, the
processing itself (paths, depths, anchors) being independent of the known
set. -/
theorem C5_returns_only_new (cfg : CSConfig) (post_id : Nat)
    (forest : List RawNode) (existing : List String) :
    (∀ c ∈ collect_comments_for_post cfg post_id forest existing,
       existing.contains c.reddit_id = false
       ∧ c ∈ (process_forest cfg post_id forest []).1)
    ∧ ∀ c ∈ (process_forest cfg post_id forest []).1,
        existing.contains c.reddit_id = false →
        c ∈ collect_comments_for_post cfg post_id forest existing := by
  constructor
  · intro c hc
    simp only [collect_comments_for_post, List.mem_filter, Bool.not_eq_true'] at hc
    exact ⟨hc.2, hc.1⟩
  · intro c hc hnew
    simp only [collect_comments_for_post, List.mem_filter, Bool.not_eq_true']
    exact ⟨hc, hnew⟩

/-- A concrete single-comment listing for the C5 witness. -/
def c5_node : RawNode :=
  .mk ⟨"t1", "abc", "a body long enough to keep", some "alice", 3, "t3_post",
    false, none, false, false, [], 11⟩ []

/-- The comment the builder produces for `c5_node`. -/
def c5_comment : Comment :=
  { reddit_id := "abc"
    post_id := 5
    parent_id := none
    content := "a body long enough to keep"
    author := "alice"
    score := 3
    depth := 0
    path := []
    is_submitter := false
    distinguished := none
    stickied := false
    edited := false
    all_awardings := []
    created_utc := 11
    reddit_parent_id := "t3_post" }

/-- Witness for C5: the kept comment of a one-node forest is returned and
its id is not among the persisted ids. -/
theorem C5_witness :
    List.contains ["zzz"] c5_comment.reddit_id = false
    ∧ c5_comment ∈ (process_forest {} 5 [c5_node] []).1 :=
  (C5_returns_only_new {} 5 [c5_node] ["zzz"]).1 c5_comment (by decide)

/-- Insertion respects membership. -/
theorem mem_insert_by {le : α → α → Bool} {x a : α} {l : List α} :
    a ∈ insert_by le x l ↔ a = x ∨ a ∈ l := by
  induction l with
  | nil => simp [insert_by]
  | cons y ys ih =>
    by_cases h : le x y = true <;> simp [insert_by, h, ih] <;> tauto

/-- `sort_by` permutes, so membership is preserved. -/
theorem mem_sort_by {le : α → α → Bool} {a : α} {l : List α} :
    a ∈ sort_by le l ↔ a ∈ l := by
  induction l with
  | nil => simp [sort_by]
  | cons y ys ih =>
    show a ∈ insert_by le y (sort_by le ys) ↔ _
    rw [mem_insert_by, ih]
    simp

/-- The catalog's theme names are pairwise distinct. -/
theorem theme_categories_names_nodup :
    (theme_categories.map (fun e => e.1)).Nodup := by
  simp only [theme_categories, List.map_cons, List.map_nil]
  decide

/-- C7: a theme materializes from a corpus only when at least 3 posts are
in its group; in particular a category matched by exactly 2 posts yields
no `Theme` row. -/
theorem C7_theme_minimum_population (audience_id : Nat)
    (corpus : List (RPost × List DbComment)) (themes : List ThemeOut)
    (hok : analyze_themes audience_id corpus = .ok themes) :
    (∀ t ∈ themes, ∃ entry ∈ theme_categories, entry.1 = t.category
        ∧ 3 ≤ (corpus.filter (in_theme_group entry.2.1)).length)
    ∧ ∀ entry ∈ theme_categories,
        (corpus.filter (in_theme_group entry.2.1)).length = 2 →
        ∀ t ∈ themes, t.category ≠ entry.1 := by
  have hmain : ∀ t ∈ themes, ∃ entry ∈ theme_categories, entry.1 = t.category
      ∧ 3 ≤ (corpus.filter (in_theme_group entry.2.1)).length := by
    intro t ht
    unfold analyze_themes at hok
    by_cases hemp : corpus.isEmpty
    · simp [hemp] at hok
    · simp only [hemp, Bool.false_eq_true, if_false] at hok
      by_cases hv : (valid_themes_for audience_id corpus).isEmpty
      · simp [hv] at hok
      · simp only [hv, Bool.false_eq_true, if_false, Except.ok.injEq] at hok
        subst hok
        rw [mem_sort_by] at ht
        unfold valid_themes_for at ht
        rw [List.mem_filterMap] at ht
        obtain ⟨entry, hentry, hfe⟩ := ht
        refine ⟨entry, hentry, ?_⟩
        split at hfe
        · rw [Option.some.injEq] at hfe
          subst hfe
          constructor
          · rfl
          · assumption
        · exact absurd hfe (by simp)
  refine ⟨hmain, ?_⟩
  intro entry hentry h2 t ht hcat
  obtain ⟨entry2, hentry2, hname, hlen⟩ := hmain t ht
  have : entry2 = entry := by
    have := List.inj_on_of_nodup_map theme_categories_names_nodup
    exact this hentry2 hentry (by rw [hname, hcat])
  rw [this, h2] at hlen
  omega

/-- For a post without comments, membership in a keyword theme group is
the purely combinatorial fact that some trigger occurs in the post text
(the rational half-weights of comments vanish on an empty comment
list). -/
theorem in_theme_group_keyword_nil (kw_list : List String) (p : RPost) :
    in_theme_group (.keyword kw_list) (p, ([] : List DbComment)) =
      decide (0 < (kw_list.filter
        (fun k => str_in (lower k) (lower (p.title ++ " " ++ p.content)))).length) := by
  unfold in_theme_group corpus_keyword_matches
  simp [Nat.cast_pos]

/-- A corpus in which exactly two posts match the "Ideas" keyword theme
(all three match "Top Content", so the run succeeds). -/
def c7_corpus : List (RPost × List DbComment) :=
  [(⟨1, "a", "idea one", "", 1, 0⟩, []),
   (⟨2, "b", "idea two", "", 1, 0⟩, []),
   (⟨3, "c", "zzz", "", 1, 0⟩, [])]

/-- The single theme `analyze_themes` generates for `c7_corpus`. -/
def c7_top_theme : ThemeOut :=
  ⟨"Top Content", "Highest-rated content", 1, [(1, 1), (2, 1), (3, 1)]⟩

/-- The "Ideas" catalog entry. -/
def c7_ideas_entry : String × ThemeRule × String :=
  ("Ideas",
    .keyword ["idea", "creative", "inspiration", "groove", "fill",
      "pattern", "style", "sound", "tone", "tuning"],
    "Creative and inspirational content")

theorem c7_ideas_mem : c7_ideas_entry ∈ theme_categories := by
  unfold theme_categories c7_ideas_entry
  exact List.mem_cons_of_mem _ (List.mem_cons_of_mem _ (List.mem_cons_of_mem _
    (List.mem_cons_of_mem _ (List.mem_cons_of_mem _ (List.mem_cons_of_mem _
    (List.mem_cons_of_mem _ (List.mem_cons_of_mem _ (List.mem_cons_self _ _))))))))

theorem c7_ideas_group_length :
    (c7_corpus.filter (in_theme_group c7_ideas_entry.2.1)).length = 2 := by
  simp only [c7_corpus, c7_ideas_entry, List.filter_cons, List.filter_nil,
    in_theme_group_keyword_nil]
  decide

theorem c7_eval : analyze_themes 1 c7_corpus = .ok [c7_top_theme] := by
  have hval : valid_themes_for 1 c7_corpus = [c7_top_theme] := by
    simp only [valid_themes_for, theme_categories, c7_corpus,
      List.filterMap_cons, List.filterMap_nil, List.filter_cons,
      List.filter_nil, in_theme_group_keyword_nil]
    decide
  unfold analyze_themes
  rw [hval]
  rfl

/-- Witness for C7: on `c7_corpus` the only generated theme is not the
"Ideas" theme, which exactly 2 posts match. -/
theorem C7_witness : c7_top_theme.category ≠ "Ideas" := by
  have h := (C7_theme_minimum_population 1 c7_corpus [c7_top_theme] c7_eval).2
    c7_ideas_entry c7_ideas_mem c7_ideas_group_length
  exact h c7_top_theme (List.mem_cons_self _ _)

mutual

/-- The external ids emitted by the builder for one node are exactly the
spec's subtree-pruned kept ids. -/
theorem process_tree_ids (cfg : CSConfig) (post_id : Nat) (node : RawNode)
    (depth : Nat) (parent_comment : Option Comment)
    (comment_map : List (String × Comment)) :
    ((process_comment_tree cfg post_id node depth parent_comment comment_map).1).map
        (fun c => c.reddit_id)
      = spec_kept_ids cfg node depth := by
  cases node with
  | mk d replies =>
    rw [process_comment_tree, spec_kept_ids]
    by_cases h1 : cfg.max_depth < depth
    · simp [h1]
    · by_cases h2 : cs_dropped cfg d = true
      · simp [h1, h2]
      · simp only [h1, h2, Bool.false_eq_true, if_false, List.map_cons,
          List.cons.injEq]
        exact ⟨trivial, process_list_ids cfg post_id replies depth _ _⟩

theorem process_list_ids (cfg : CSConfig) (post_id : Nat) (rs : List RawNode)
    (depth : Nat) (parent : Comment) (comment_map : List (String × Comment)) :
    ((process_reply_list cfg post_id rs depth parent comment_map).1).map
        (fun c => c.reddit_id)
      = spec_kept_ids_list cfg rs (depth + 1) := by
  cases rs with
  | nil => rfl
  | cons r rest =>
    rw [process_reply_list, spec_kept_ids_list]
    by_cases hk : r.data.kind = "t1"
    · simp only [hk, if_true, List.map_append]
      rw [process_tree_ids, process_list_ids]
    · simp only [hk, if_false, List.nil_append]
      exact process_list_ids cfg post_id rest depth parent comment_map

end

/-- C4 (amended): in the builder of `comment_service.py` — whose score
threshold is the single configured `min_score` — a node failing the
quality filter is dropped together with its entire subtree: the recursive
call returns nothing and touches nothing, and the ids the forest
processing emits are exactly the spec's subtree-pruned kept ids. -/
theorem C4_subtree_exclusion_in_builder (cfg : CSConfig) (post_id : Nat) :
    (∀ (d : RawData) (replies : List RawNode) (depth : Nat)
        (parent_comment : Option Comment)
        (comment_map : List (String × Comment)),
        cs_dropped cfg d = true →
        process_comment_tree cfg post_id (.mk d replies) depth parent_comment
            comment_map
          = ([], comment_map))
    ∧ ∀ (forest : List RawNode) (comment_map : List (String × Comment)),
        ((process_forest cfg post_id forest comment_map).1).map
            (fun c => c.reddit_id)
          = spec_kept_forest cfg forest := by
  constructor
  · intro d replies depth pc cmap h
    rw [process_comment_tree]
    by_cases h1 : cfg.max_depth < depth
    · simp [h1]
    · simp [h1, h]
  · intro forest cmap
    induction forest generalizing cmap with
    | nil => rfl
    | cons t ts ih =>
      rw [process_forest, spec_kept_forest]
      by_cases hk : t.data.kind = "t1"
      · simp only [hk, if_true, List.map_append]
        rw [process_tree_ids, ih]
      · simp only [hk, if_false, List.nil_append]
        exact ih _

/-- A node the quality filter drops (body shorter than `min_length`). -/
def c4w_data : RawData :=
  ⟨"t1", "w", "hi", some "ann", 50, "t3_post", false, none, false, false, [], 1⟩

/-- Witness for C4: processing a dropped node returns nothing and leaves
the comment map untouched. -/
theorem C4_witness :
    process_comment_tree {} 5 (.mk c4w_data []) 0 none [] = ([], []) :=
  (C4_subtree_exclusion_in_builder {} 5).1 c4w_data [] 0 none [] (by decide)

/-- A child whose score passes its per-depth threshold. -/
def c4_child : PrawNode :=
  .mk ⟨"c1", some "bob", "child body", some 5, 5, 1, false, none, false,
    false, false, some "t1_p1"⟩ []

/-- A parent whose score 0 is below the depth-0 threshold 5 — dropped by
the quality filter. -/
def c4_parent : PrawNode :=
  .mk ⟨"p1", some "alice", "parent body", some 4, 0, 0, false, none, false,
    false, false, some "t3_post"⟩ [c4_child]

def c4_min_score : MinScoreMap := ⟨[(0, 5)], 1⟩

/-- Counterexample to C4 as stated: in `reddit.py`'s
`collect_post_comments` — the collector that uses the per-depth
`minScoreByDepth` threshold with a default — the parent is dropped by the
score filter, yet its child still appears in the returned list: a dropped
node's subtree is **not** excluded there. -/
theorem C4_counterexample :
    c4_parent.data.score < min_score_at c4_min_score c4_parent.data.praw_depth
    ∧ rs_process_comment c4_min_score 42 c4_parent.data = none
    ∧ (rs_collect_post_comments c4_min_score 5 42 [] [c4_parent]).map
        (fun c => c.reddit_id) = ["c1"] := by
  refine ⟨by decide, rfl, rfl⟩

mutual

/-- Every comment the builder emits has depth at most `max_depth` (the
guard returns before any node beyond the cap is built). -/
theorem cs_depth_bounded (cfg : CSConfig) (post_id : Nat) (node : RawNode)
    (depth : Nat) (parent_comment : Option Comment)
    (comment_map : List (String × Comment)) :
    ∀ c ∈ (process_comment_tree cfg post_id node depth parent_comment
        comment_map).1, c.depth ≤ cfg.max_depth := by
  cases node with
  | mk d replies =>
    rw [process_comment_tree]
    by_cases h1 : cfg.max_depth < depth
    · simp [h1]
    · by_cases h2 : cs_dropped cfg d = true
      · simp [h1, h2]
      · simp only [h1, h2, Bool.false_eq_true, if_false]
        intro c hc
        rcases List.mem_cons.mp hc with rfl | hc2
        · exact Nat.le_of_not_lt h1
        · exact cs_depth_bounded_list cfg post_id replies depth _ _ c hc2

theorem cs_depth_bounded_list (cfg : CSConfig) (post_id : Nat)
    (rs : List RawNode) (depth : Nat) (parent : Comment)
    (comment_map : List (String × Comment)) :
    ∀ c ∈ (process_reply_list cfg post_id rs depth parent comment_map).1,
      c.depth ≤ cfg.max_depth := by
  cases rs with
  | nil => simp [process_reply_list]
  | cons r rest =>
    rw [process_reply_list]
    by_cases hk : r.data.kind = "t1"
    · simp only [hk, if_true]
      intro c hc
      rcases List.mem_append.mp hc with h | h
      · exact cs_depth_bounded cfg post_id r (depth + 1) _ _ c h
      · exact cs_depth_bounded_list cfg post_id rest depth _ _ c h
    · simp only [hk, if_false]
      exact cs_depth_bounded_list cfg post_id rest depth parent comment_map

end

mutual

/-- Path/depth invariant of the builder on well-formed input: under a
parent whose path length equals its depth (or at the top level), every
emitted comment's path length equals its depth. -/
theorem cs_path_depth (cfg : CSConfig) (post_id : Nat) (node : RawNode)
    (depth : Nat) (parent_comment : Option Comment)
    (comment_map : List (String × Comment))
    (hpar : (parent_comment = none ∧ depth = 0 ∧ wf_node true node = true)
      ∨ ∃ p, parent_comment = some p ∧ p.path.length = p.depth
          ∧ depth = p.depth + 1 ∧ wf_node false node = true) :
    ∀ c ∈ (process_comment_tree cfg post_id node depth parent_comment
        comment_map).1, c.path.length = c.depth := by
  cases node with
  | mk d replies =>
    rw [process_comment_tree]
    by_cases h1 : cfg.max_depth < depth
    · simp [h1]
    · by_cases h2 : cs_dropped cfg d = true
      · simp [h1, h2]
      · simp only [h1, h2, Bool.false_eq_true, if_false]
        rcases hpar with ⟨hpc, hd0, hwf⟩ | ⟨p, hpc, hlen, hdep, hwf⟩
        · subst hpc
          subst hd0
          rw [wf_node] at hwf
          simp only [if_true, Bool.and_eq_true, Bool.not_eq_true'] at hwf
          obtain ⟨hst, hwfr⟩ := hwf
          simp only [hst, Bool.false_eq_true, if_false]
          intro c hc
          rcases List.mem_cons.mp hc with rfl | hc2
          · rfl
          · exact cs_path_depth_list cfg post_id replies 0 _ _
              ⟨rfl, rfl, hwfr⟩ c hc2
        · subst hpc
          rw [wf_node] at hwf
          simp only [Bool.false_eq_true, if_false, Bool.and_eq_true] at hwf
          obtain ⟨hst, hwfr⟩ := hwf
          simp only [hst, eq_self_iff_true, if_true]
          intro c hc
          rcases List.mem_cons.mp hc with rfl | hc2
          · simp [List.length_append, hlen, hdep]
          · refine cs_path_depth_list cfg post_id replies depth _ _
              ⟨?_, rfl, hwfr⟩ c hc2
            simp [List.length_append, hlen, hdep]

theorem cs_path_depth_list (cfg : CSConfig) (post_id : Nat)
    (rs : List RawNode) (depth : Nat) (parent : Comment)
    (comment_map : List (String × Comment))
    (hp : parent.path.length = parent.depth ∧ depth = parent.depth
      ∧ wf_replies rs = true) :
    ∀ c ∈ (process_reply_list cfg post_id rs depth parent comment_map).1,
      c.path.length = c.depth := by
  obtain ⟨hplen, hpd, hwfr⟩ := hp
  cases rs with
  | nil => simp [process_reply_list]
  | cons r rest =>
    rw [wf_replies, Bool.and_eq_true, Bool.or_eq_true] at hwfr
    obtain ⟨hhead, htail⟩ := hwfr
    rw [process_reply_list]
    by_cases hk : r.data.kind = "t1"
    · simp only [hk, if_true]
      intro c hc
      rcases List.mem_append.mp hc with h | h
      · refine cs_path_depth cfg post_id r (depth + 1) _ _
          (Or.inr ⟨parent, rfl, hplen, by omega, ?_⟩) c h
        rcases hhead with hne | hw
        · rw [bne_iff_ne] at hne
          exact absurd hk hne
        · exact hw
      · exact cs_path_depth_list cfg post_id rest depth _ _
          ⟨hplen, hpd, htail⟩ c h
    · simp only [hk, if_false]
      exact cs_path_depth_list cfg post_id rest depth parent comment_map
        ⟨hplen, hpd, htail⟩

end

/-- Forest-level depth bound. -/
theorem cs_forest_depth (cfg : CSConfig) (post_id : Nat)
    (forest : List RawNode) (comment_map : List (String × Comment)) :
    ∀ c ∈ (process_forest cfg post_id forest comment_map).1,
      c.depth ≤ cfg.max_depth := by
  induction forest generalizing comment_map with
  | nil => simp [process_forest]
  | cons t ts ih =>
    rw [process_forest]
    by_cases hk : t.data.kind = "t1"
    · simp only [hk, if_true]
      intro c hc
      rcases List.mem_append.mp hc with h | h
      · exact cs_depth_bounded cfg post_id t 0 _ _ c h
      · exact ih _ c h
    · simp only [hk, if_false]
      exact ih _

/-- Forest-level path/depth equality on well-formed forests. -/
theorem cs_forest_path (cfg : CSConfig) (post_id : Nat)
    (forest : List RawNode) (comment_map : List (String × Comment))
    (hwf : wf_forest forest = true) :
    ∀ c ∈ (process_forest cfg post_id forest comment_map).1,
      c.path.length = c.depth := by
  induction forest generalizing comment_map with
  | nil => simp [process_forest]
  | cons t ts ih =>
    rw [wf_forest, List.all_cons, Bool.and_eq_true] at hwf
    obtain ⟨hhead, htail⟩ := hwf
    rw [process_forest]
    by_cases hk : t.data.kind = "t1"
    · simp only [hk, if_true]
      intro c hc
      rcases List.mem_append.mp hc with h | h
      · refine cs_path_depth cfg post_id t 0 none _ (Or.inl ⟨rfl, rfl, ?_⟩) c h
        rw [Bool.or_eq_true, bne_iff_ne] at hhead
        rcases hhead with hne | hw
        · exact absurd hk hne
        · exact hw
      · exact ih _ htail c h
    · simp only [hk, if_false]
      exact ih _ htail

/-- C3 (amended): the builder never emits a comment deeper than
`max_depth`; and on forests whose declared parent kinds agree with their
structure (`wf_forest`), every emitted comment's path length equals its
depth — a top-level comment has depth 0 and empty path, a reply extends
its parent's path by the parent's id. -/
theorem C3_depth_cap_and_paths (cfg : CSConfig) (post_id : Nat)
    (forest : List RawNode) :
    (∀ c ∈ (process_forest cfg post_id forest []).1, c.depth ≤ cfg.max_depth)
    ∧ (wf_forest forest = true →
      ∀ c ∈ (process_forest cfg post_id forest []).1,
        c.path.length = c.depth) :=
  ⟨cs_forest_depth cfg post_id forest [],
   fun hwf => cs_forest_path cfg post_id forest [] hwf⟩

/-- A well-formed two-level forest: `a` is top-level with a reply `b`
declaring `t1_a` as its parent. -/
def c3w_child : RawNode :=
  .mk ⟨"t1", "b", "bbbbbbbbbbbbbbbbbbbbbbbbb", some "bob", 3, "t1_a", false,
    none, false, false, [], 2⟩ []

def c3w_root : RawNode :=
  .mk ⟨"t1", "a", "aaaaaaaaaaaaaaaaaaaaaaaaa", some "ann", 3, "t3_post",
    false, none, false, false, [], 1⟩ [c3w_child]

/-- The comment built for `c3w_child`: depth 1, path `[parent id]`. -/
def c3w_comment : Comment :=
  { reddit_id := "b"
    post_id := 5
    parent_id := none
    content := "bbbbbbbbbbbbbbbbbbbbbbbbb"
    author := "bob"
    score := 3
    depth := 1
    path := [none]
    is_submitter := false
    distinguished := none
    stickied := false
    edited := false
    all_awardings := []
    created_utc := 2
    reddit_parent_id := "a" }

/-- Witness for C3 on the well-formed forest: the reply's path length
equals its depth. -/
theorem C3_witness : c3w_comment.path.length = c3w_comment.depth :=
  (C3_depth_cap_and_paths {} 5 [c3w_root]).2 (by decide) c3w_comment (by decide)

/-- A nested reply that declares a post (`t3_`) parent. -/
def c3_bad_child : RawNode :=
  .mk ⟨"t1", "b", "bbbbbbbbbbbbbbbbbbbbbbbbb", some "bob", 3, "t3_post",
    false, none, false, false, [], 2⟩ []

def c3_bad_root : RawNode :=
  .mk ⟨"t1", "a", "aaaaaaaaaaaaaaaaaaaaaaaaa", some "ann", 3, "t3_post",
    false, none, false, false, [], 1⟩ [c3_bad_child]

/-- Counterexample to C3 as stated: on a forest where a nested reply
declares a post parent, the builder emits a comment whose depth is 1 while
its path is empty — path length and depth disagree. -/
theorem C3_counterexample :
    ∃ c ∈ (process_forest {} 5 [c3_bad_root] []).1,
      c.path.length ≠ c.depth := by
  refine ⟨{ reddit_id := "b"
            post_id := 5
            parent_id := none
            content := "bbbbbbbbbbbbbbbbbbbbbbbbb"
            author := "bob"
            score := 3
            depth := 1
            path := []
            is_submitter := false
            distinguished := none
            stickied := false
            edited := false
            all_awardings := []
            created_utc := 2
            reddit_parent_id := "t3_post" }, by decide, by decide⟩

/-- Bounds on the per-post progress writes of one subreddit iteration:
they are non-decreasing and all lie between the write for post `j` and
the write for the last post. -/
theorem run_posts_writes {σ : Type} (n m : Nat) :
    ∀ (j : Nat) (ps : List (PostEnv σ)) (st : σ), j + ps.length = m + 1 →
      List.Pairwise (fun a b => a ≤ b) (run_posts n m j ps st).2
      ∧ ∀ w ∈ (run_posts n m j ps st).2,
          50 + j * 50 / (m * n) ≤ w ∧ w ≤ 50 + m * 50 / (m * n) := by
  intro j ps
  induction ps generalizing j with
  | nil => intro st _; simp [run_posts]
  | cons p rest ih =>
    intro st hlen
    rw [run_posts]
    obtain ⟨ihp, ihb⟩ := ih (j + 1) (post_step p st).1
      (by simp at hlen; omega)
    have hmono : ∀ a b : Nat, a ≤ b → a * 50 / (m * n) ≤ b * 50 / (m * n) :=
      fun a b hab => Nat.div_le_div_right (Nat.mul_le_mul_right 50 hab)
    have hjm : j ≤ m := by simp at hlen; omega
    have hstep := hmono j (j + 1) (by omega)
    cases hw : (post_step p st).2
    · simp only [hw, Bool.false_eq_true, if_false, List.nil_append]
      refine ⟨ihp, fun w hww => ?_⟩
      obtain ⟨hlo, hhi⟩ := ihb w hww
      exact ⟨by omega, hhi⟩
    · simp only [hw, if_true, List.singleton_append]
      refine ⟨?_, ?_⟩
      · rw [List.pairwise_cons]
        refine ⟨fun w hww => ?_, ihp⟩
        have := (ihb w hww).1
        omega
      · intro w hww
        rcases List.mem_cons.mp hww with rfl | hww2
        · exact ⟨le_refl _, by have := hmono j m hjm; omega⟩
        · obtain ⟨hlo, hhi⟩ := ihb w hww2
          exact ⟨by omega, hhi⟩

/-- C2 (amended): for an audience with exactly one subreddit, the progress
values committed during a run are monotonically non-decreasing.  (With two
or more subreddits this fails — see the counterexample.) -/
theorem C2_progress_monotone_single_sub {σ : Type} (aud : Audience)
    (env : RunEnv σ) (st : σ) (now : Nat) (h1 : env.subs.length = 1) :
    List.Pairwise (fun a b => a ≤ b)
      ((collect_posts_for_audience aud env st now).progress_trace) := by
  obtain ⟨s, hs⟩ := List.length_eq_one.mp h1
  rw [collect_posts_for_audience]
  by_cases haud : aud.is_collecting = true
  · simp [haud]
  · rw [Bool.not_eq_true] at haud
    simp only [haud, Bool.false_eq_true, if_false, hs, List.length_cons,
      List.length_nil, Nat.zero_add, Nat.one_ne_zero, if_false]
    rw [run_subs]
    rcases hf : s.fetch with e | posts
    · simp
    · obtain ⟨hpw, hb⟩ := run_posts_writes 1 posts.length 1 posts st (by omega)
      have hup : posts.length * 50 / (posts.length * 1) ≤ 50 := by
        cases hm : posts.length with
        | zero => simp
        | succ k =>
          rw [Nat.mul_one, Nat.mul_comm, Nat.mul_div_cancel _ (Nat.succ_pos k)]
      simp only [run_subs, List.append_nil]
      have hgoal : List.Pairwise (fun a b => a ≤ b)
          (0 :: (50 ::
            (run_posts 1 posts.length 1 posts st).2) ++ [100]) := by
        simp only [List.cons_append]
        refine List.Pairwise.cons (fun y _ => Nat.zero_le y) ?_
        refine List.Pairwise.cons ?_ ?_
        · intro y hy
          rcases List.mem_append.mp hy with h | h
          · exact le_trans (Nat.le_add_right 50 _) ((hb y h).1)
          · simp at h
            omega
        · rw [List.pairwise_append]
          refine ⟨hpw, List.pairwise_singleton _ _, ?_⟩
          intro x hx y hy
          simp at hy
          subst hy
          have h2 := (hb x hx).2
          omega
      rcases hth : (if env.is_initial then env.themes else .ok (fun s => s))
        with e2 | teff <;> simpa using hgoal

/-- The environment of the counterexample run: two subreddits, the first
fetching one fully-processed post, the second fetching none. -/
def c2_env : RunEnv Unit :=
  ⟨[⟨.ok [⟨true, fun s => s, .ok (fun s => s), true, fun s => s⟩]⟩,
    ⟨.ok []⟩], false, .ok (fun s => s)⟩

/-- Counterexample to C2 as stated: with two subreddits the committed
progress sequence is `[0, 25, 75, 50, 100]` — the header write of the
second subreddit (50) drops below the per-post write of the first (75), so
the sequence is not monotonically non-decreasing. -/
theorem C2_counterexample :
    (collect_posts_for_audience ⟨false, 0, none⟩ c2_env () 0).progress_trace
      = [0, 25, 75, 50, 100]
    ∧ ¬ List.Pairwise (fun a b => a ≤ b)
        ((collect_posts_for_audience ⟨false, 0, none⟩ c2_env () 0).progress_trace) := by
  refine ⟨rfl, ?_⟩
  intro h
  rw [show (collect_posts_for_audience ⟨false, 0, none⟩ c2_env () 0).progress_trace
    = [0, 25, 75, 50, 100] from rfl] at h
  rcases List.pairwise_cons.mp h with ⟨_, h2⟩
  rcases List.pairwise_cons.mp h2 with ⟨_, h3⟩
  rcases List.pairwise_cons.mp h3 with ⟨h75, _⟩
  have : (75 : Nat) ≤ 50 := h75 50 (by simp)
  omega

/-- A single-subreddit environment whose one post is fully processed. -/
def c2w_env : RunEnv Unit :=
  ⟨[⟨.ok [⟨true, fun s => s, .ok (fun s => s), true, fun s => s⟩]⟩],
    false, .ok (fun s => s)⟩

/-- Witness for the amended C2 on a concrete single-subreddit run. -/
theorem C2_witness :
    List.Pairwise (fun a b => a ≤ b)
      ((collect_posts_for_audience ⟨false, 0, none⟩ c2w_env () 7).progress_trace) :=
  C2_progress_monotone_single_sub ⟨false, 0, none⟩ c2w_env () 7 rfl

end RSearch
